import Mathlib

/-!
Shallow embedding of the FogBound weather-ingestion pipeline
(src/data/fetch_weather.py, src/data/database.py, src/data/collector.py,
src/data/backfill_weathergov.py).  Measurement values are rationals;
Python's banker's rounding is modelled explicitly; exceptions are
modelled as explicit result constructors; the relational store is a list
of rows with the (station_id, observed_at) unique constraint enforced at
insert time, as the PostgreSQL schema in database.py declares it.
-/

/-- Python's built-in round() to an integer: round-half-to-even. -/
def pyRoundInt (q : ℚ) : ℤ :=
  let f := ⌊q⌋
  let r := q - f
  if r < 1/2 then f
  else if r > 1/2 then f + 1
  else if f % 2 = 0 then f else f + 1

/-- Python's round(x, 2): round-half-to-even at two decimal places. -/
def pyRound2 (q : ℚ) : ℚ :=
  (pyRoundInt (q * 100) : ℚ) / 100

/-- The eight-entry cardinal table of WeatherFetcher._degrees_to_cardinal. -/
def directions : List String := ["N", "NE", "E", "SE", "S", "SW", "W", "NW"]

/-- WeatherFetcher._degrees_to_cardinal for a non-None degrees input:
index = round(degrees / 45) % 8, then the table lookup. -/
def degrees_to_cardinal (degrees : ℚ) : String :=
  let index := pyRoundInt (degrees / 45) % 8
  directions.getD index.toNat ""

/-- Substring occurrence test on character lists (Python's `in` operator). -/
def listContains (needle : List Char) : List Char → Bool
  | [] => needle.isEmpty
  | c :: t => needle.isPrefixOf (c :: t) || listContains needle t

/-- The collector's duplicate-exception test: whether the lowercased message
contains 'duplicate key value' or 'uix_station_time'. -/
def isDuplicateError (msg : String) : Bool :=
  let lower := msg.data.map Char.toLower
  listContains "duplicate key value".data lower ||
    listContains "uix_station_time".data lower

/-- PostgreSQL's message for a violation of the uix_station_time constraint,
the exception text insert_observation lets escape on a duplicate row. -/
def dupMsg : String :=
  "duplicate key value violates unique constraint \"uix_station_time\""

/-- The normalized observation dict produced by WeatherFetcher._parse_observation
(keys matching the WeatherObservation model).  observed_at is an abstract
timezone-aware instant; missing numeric data is none. -/
structure Observation where
  observed_at : Option Nat
  station_id : String
  station_name : String
  temperature_c : Option ℚ
  dewpoint_c : Option ℚ
  dewpoint_spread_c : Option ℚ
  relative_humidity : Option ℚ
  barometric_pressure : Option ℚ
  visibility_m : Option ℚ
  wind_speed_kmh : Option ℚ
  wind_direction : Option String
  wind_gust_kmh : Option ℚ
  conditions_text : String
  cloud_coverage : Option String
  deriving DecidableEq, Repr

/-- WeatherFetcher.validate_observation: the final gate before persistence. -/
def validate_observation (o : Observation) : Bool :=
  if o.observed_at = none then false
  else if o.station_id = "" then false
  else if o.temperature_c.any (fun t => decide (t < -50) || decide (t > 50)) then false
  else if o.relative_humidity.any (fun h => decide (h < 0) || decide (h > 100)) then false
  else if o.visibility_m.any (fun v => decide (v < 0)) then false
  else true

/-- The provider's properties bag as _parse_observation reads it.  A quantity
field is none when absent and some none when present with a null value; the
timestamp is none when the key is missing (AttributeError on .replace),
some none when the string does not parse (ValueError), and some (some t)
when datetime.fromisoformat yields the instant t.  cloudLayers holds the
amount of each layer in order. -/
structure RawProperties where
  timestamp : Option (Option Nat)
  temperature : Option (Option ℚ)
  dewpoint : Option (Option ℚ)
  relativeHumidity : Option (Option ℚ)
  barometricPressure : Option (Option ℚ)
  visibility : Option (Option ℚ)
  windSpeed : Option (Option ℚ)
  windGust : Option (Option ℚ)
  windDirection : Option (Option ℚ)
  textDescription : String
  cloudLayers : List String
  station : String
  deriving DecidableEq, Repr

/-- WeatherFetcher._extract_value: none for a missing field or a null value,
otherwise round(float(value), 2). -/
def extract_value (field : Option (Option ℚ)) : Option ℚ :=
  match field with
  | none => none
  | some none => none
  | some (some v) => some (pyRound2 v)

/-- WeatherFetcher._parse_observation.  selfStation is the fetcher's own
station_id, the fallback when the payload carries no station URL.  The two
error cases are the exceptions timestamp handling raises. -/
def parse_observation (selfStation : String) (props : RawProperties) :
    Except String Observation :=
  match props.timestamp with
  | none => .error "AttributeError: NoneType object has no attribute replace"
  | some none => .error "ValueError: invalid isoformat string"
  | some (some t) =>
    let temp_c := extract_value props.temperature
    let dewpoint_c := extract_value props.dewpoint
    let dewpoint_spread_c :=
      match temp_c, dewpoint_c with
      | some a, some b => some (pyRound2 (a - b))
      | _, _ => none
    let humidity := extract_value props.relativeHumidity
    let pressure :=
      match extract_value props.barometricPressure with
      | some p => some (pyRound2 (p / 100))
      | none => none
    let visibility := extract_value props.visibility
    let wind_speed_kmh :=
      match extract_value props.windSpeed with
      | some v => some (pyRound2 (v * (18/5)))
      | none => none
    let wind_gust_kmh :=
      match extract_value props.windGust with
      | some v => some (pyRound2 (v * (18/5)))
      | none => none
    let wind_direction :=
      match extract_value props.windDirection with
      | some d => if d = 0 then none else some (degrees_to_cardinal d)
      | none => none
    let station_id :=
      if props.station = "" then selfStation
      else (props.station.splitOn "/").getLastD ""
    .ok {
      observed_at := some t
      station_id := station_id
      station_name := props.station
      temperature_c := temp_c
      dewpoint_c := dewpoint_c
      dewpoint_spread_c := dewpoint_spread_c
      relative_humidity := humidity
      barometric_pressure := pressure
      visibility_m := visibility
      wind_speed_kmh := wind_speed_kmh
      wind_direction := wind_direction
      wind_gust_kmh := wind_gust_kmh
      conditions_text := props.textDescription
      cloud_coverage := props.cloudLayers.head?
    }

/-- Outcome of the HTTP interaction in fetch_latest_observation, mirroring
the code's exception structure: a requests.RequestException (timeout,
connection failure, or raise_for_status on a non-2xx status), a body on
which response.json() raises, or a decoded properties bag. -/
inductive HttpOutcome where
  | requestException : String → HttpOutcome
  | jsonError : HttpOutcome
  | ok : RawProperties → HttpOutcome
  deriving DecidableEq, Repr

/-- WeatherFetcher.fetch_latest_observation: every exception path is caught
and converted to None. -/
def fetch_latest_observation (selfStation : String) (resp : HttpOutcome) :
    Option Observation :=
  match resp with
  | .requestException _ => none
  | .jsonError => none
  | .ok payload =>
    match parse_observation selfStation payload with
    | .error _ => none
    | .ok obs => some obs

/-- The weather_observations table: a sequence of rows. -/
abbrev DB := List Observation

/-- Whether a row with the given (station_id, observed_at) key exists. -/
def dbHasKey (db : DB) (sid : String) (t : Option Nat) : Bool :=
  db.any (fun r => r.station_id == sid && r.observed_at == t)

/-- Number of stored rows carrying the given (station_id, observed_at) key. -/
def countKey (db : DB) (sid : String) (t : Option Nat) : Nat :=
  (db.filter (fun r => r.station_id == sid && r.observed_at == t)).length

/-- The store's unique constraint uix_station_time as an invariant. -/
def uniqueKeys (db : DB) : Prop :=
  ∀ sid t, countKey db sid t ≤ 1

/-- Result of insert_observation: the commit either succeeds or the store
raises, and database.py re-raises after a rollback (no partial write). -/
inductive InsertResult where
  | inserted : DB → InsertResult
  | raised : String → InsertResult
  deriving DecidableEq

/-- insert_observation: a single-row insert against the unique constraint
on (station_id, observed_at); a conflicting key makes the commit raise
the duplicate-key IntegrityError, which is re-raised to the caller. -/
def insert_observation (db : DB) (o : Observation) : InsertResult :=
  if dbHasKey db o.station_id o.observed_at then .raised dupMsg
  else .inserted (db ++ [o])

/-- Result of one MultiStationCollector._collect_station cycle: the boolean
the method returns, the store afterwards, and whether the fog-alert log
line was emitted. -/
structure CycleOutput where
  success : Bool
  db : DB
  fogAlert : Bool
  deriving DecidableEq, Repr

/-- MultiStationCollector._collect_station, given the fetch result.  The fog
check sits inside the try block after a successful insert and tests the
truthiness of visibility_m before comparing it with 1000; a raised insert
is string-matched for the duplicate pattern and mapped to True. -/
def collect_station (db : DB) (fetched : Option Observation) : CycleOutput :=
  match fetched with
  | none => ⟨false, db, false⟩
  | some obs =>
    if validate_observation obs = false then ⟨false, db, false⟩
    else
      match insert_observation db obs with
      | .inserted db2 =>
        let fog :=
          match obs.visibility_m with
          | some v => decide (¬ v = 0) && decide (v < 1000)
          | none => false
        ⟨true, db2, fog⟩
      | .raised msg =>
        if isDuplicateError msg then ⟨true, db, false⟩
        else ⟨false, db, false⟩

/-- The stats dict collect_all_stations builds for a round. -/
structure RoundStats where
  successful : Nat
  duplicates : Nat
  failed : Nat
  deriving DecidableEq, Repr

/-- What happens for one station inside the round's loop body: either
_collect_station runs with the given fetch result, or the body raises an
unexpected exception that the per-station handler catches. -/
inductive StationStep where
  | run : Option Observation → StationStep
  | exnRaised : String → StationStep
  deriving DecidableEq, Repr

/-- One iteration of the loop in MultiStationCollector.collect_all_stations:
True increments successful, False increments failed, and a caught
exception increments failed; the loop then continues. -/
def roundStep (acc : RoundStats × DB) (step : StationStep) : RoundStats × DB :=
  match step with
  | .exnRaised _ => ({ acc.1 with failed := acc.1.failed + 1 }, acc.2)
  | .run fetched =>
    let c := collect_station acc.2 fetched
    (if c.success then { acc.1 with successful := acc.1.successful + 1 }
     else { acc.1 with failed := acc.1.failed + 1 }, c.db)

/-- MultiStationCollector.collect_all_stations over one round, threading the
store through the stations in order. -/
def runRound (db : DB) (steps : List StationStep) : RoundStats × DB :=
  steps.foldl roundStep (⟨0, 0, 0⟩, db)

/-- The counters WeatherGovBackfiller.backfill accumulates. -/
structure BackfillCounts where
  fetched : Nat
  inserted : Nat
  duplicates : Nat
  errors : Nat
  deriving DecidableEq, Repr

/-- WeatherGovBackfiller._parse_observation: the fetcher's parse wrapped in
a try that converts any exception to None. -/
def backfillParse (selfStation : String) (props : RawProperties) :
    Option Observation :=
  match parse_observation selfStation props with
  | .ok o => some o
  | .error _ => none

/-- One iteration of the per-feature loop in WeatherGovBackfiller.backfill:
parse failure or validation failure increments errors; a raised insert is
string-matched and increments duplicates or errors; the loop continues. -/
def backfillStep (selfStation : String) (acc : BackfillCounts × DB)
    (f : RawProperties) : BackfillCounts × DB :=
  match backfillParse selfStation f with
  | none => ({ acc.1 with errors := acc.1.errors + 1 }, acc.2)
  | some o =>
    if validate_observation o = false then
      ({ acc.1 with errors := acc.1.errors + 1 }, acc.2)
    else
      match insert_observation acc.2 o with
      | .inserted db2 => ({ acc.1 with inserted := acc.1.inserted + 1 }, db2)
      | .raised msg =>
        if isDuplicateError msg then
          ({ acc.1 with duplicates := acc.1.duplicates + 1 }, acc.2)
        else ({ acc.1 with errors := acc.1.errors + 1 }, acc.2)

/-- WeatherGovBackfiller.backfill over the returned feature list:
total_fetched is the length of the list, then every feature is processed
in order by the loop body. -/
def backfill_process (selfStation : String) (db : DB)
    (features : List RawProperties) : BackfillCounts × DB :=
  features.foldl (backfillStep selfStation) (⟨features.length, 0, 0, 0⟩, db)

/-- Evaluation rule for pyRoundInt when the fractional part is below one half. -/
lemma pyRoundInt_of_lt (q : ℚ) (f : ℤ) (h1 : ⌊q⌋ = f) (h2 : q - f < 1/2) :
    pyRoundInt q = f := by
  simp only [pyRoundInt, h1]
  rw [if_pos h2]

/-- Evaluation rule for pyRoundInt when the fractional part is above one half. -/
lemma pyRoundInt_of_gt (q : ℚ) (f : ℤ) (h1 : ⌊q⌋ = f) (h2 : 1/2 < q - f) :
    pyRoundInt q = f + 1 := by
  simp only [pyRoundInt, h1]
  rw [if_neg (by linarith), if_pos h2]

/-- C10: the degrees-to-cardinal conversion is total: for every rational
degrees value, including negative values and values at or above 360, the
index round(degrees/45) mod 8 lies within the eight-element table, and the
lookup returns one of the eight cardinal codes. -/
theorem degrees_to_cardinal_total (d : ℚ) :
    0 ≤ pyRoundInt (d / 45) % 8 ∧ pyRoundInt (d / 45) % 8 < 8 ∧
    degrees_to_cardinal d ∈ directions := by
  have h1 : 0 ≤ pyRoundInt (d / 45) % 8 := Int.emod_nonneg _ (by norm_num)
  have h2 : pyRoundInt (d / 45) % 8 < 8 := Int.emod_lt_of_pos _ (by norm_num)
  refine ⟨h1, h2, ?_⟩
  simp only [degrees_to_cardinal]
  have h3 : (pyRoundInt (d / 45) % 8).toNat < 8 := by omega
  set n := (pyRoundInt (d / 45) % 8).toNat with hn
  interval_cases n <;> simp [directions]
-- C2 block (to append once it compiles)
/-- Concrete payload used to exercise normalization on a single wind-direction value. -/
def payloadWind (v : ℚ) : RawProperties :=
  { timestamp := some (some 0), temperature := none, dewpoint := none,
    relativeHumidity := none, barometricPressure := none, visibility := none,
    windSpeed := none, windGust := none, windDirection := some (some v),
    textDescription := "", cloudLayers := [], station := "" }

lemma pyRound2_int (n : ℤ) : pyRound2 (n : ℚ) = n := by
  have h : ((n : ℚ) * 100) = ((n * 100 : ℤ) : ℚ) := by push_cast; ring
  rw [pyRound2, h, pyRoundInt_of_lt _ (n * 100) (by rw [Int.floor_intCast]) (by norm_num)]
  push_cast
  ring

lemma degrees_to_cardinal_44 : degrees_to_cardinal 44 = "NE" := by
  have h : pyRoundInt ((44 : ℚ) / 45) = 1 := by
    rw [pyRoundInt_of_gt _ 0 (by norm_num) (by norm_num)]
    norm_num
  simp [degrees_to_cardinal, h, directions]

/-- C2 counterexample: the payload value 44 normalizes to wind_direction NE,
not N as claimed; and the payload value 0 normalizes to no wind_direction at
all (the zero guard is falsy), even though the table helper maps 0 to N. -/
theorem wind_direction_counterexample :
    (parse_observation "KPNE" (payloadWind 44)).map (fun o => o.wind_direction)
      = Except.ok (some "NE") ∧
    ("NE" : String) ≠ "N" ∧
    (parse_observation "KPNE" (payloadWind 0)).map (fun o => o.wind_direction)
      = Except.ok none ∧
    degrees_to_cardinal 0 = "N" := by
  have h44 : pyRound2 (44 : ℚ) = 44 := by
    have := pyRound2_int 44
    norm_num at this
    exact_mod_cast this
  have h0 : pyRound2 (0 : ℚ) = 0 := by
    have := pyRound2_int 0
    norm_num at this
    exact_mod_cast this
  refine ⟨?_, by decide, ?_, ?_⟩
  · simp [parse_observation, payloadWind, extract_value, h44, degrees_to_cardinal_44,
      Except.map]
  · simp [parse_observation, payloadWind, extract_value, h0, Except.map]
  · have h : pyRoundInt ((0 : ℚ) / 45) = 0 := by
      rw [pyRoundInt_of_lt _ 0 (by norm_num) (by norm_num)]
    simp only [degrees_to_cardinal]
    rw [h]
    decide

/-- C2 amended: for a payload whose wind-direction value rounds (2 dp) to a
nonzero number, normalization yields the cardinal at index
round(degrees/45) mod 8 of the table applied to the rounded value; a value
rounding to 0 yields no direction because of the falsy-zero guard.  Table
examples: 0 maps to N, 44 to NE (not N), 46 to NE, 180 to S, 359 to N,
360 to N. -/
theorem wind_direction_amended (s : String) (p : RawProperties) (t : Nat) (d : ℚ)
    (ht : p.timestamp = some (some t)) (hw : p.windDirection = some (some d)) :
    (parse_observation s p).map (fun o => o.wind_direction)
      = Except.ok (if pyRound2 d = 0 then none
                   else some (degrees_to_cardinal (pyRound2 d))) ∧
    degrees_to_cardinal 0 = "N" ∧ degrees_to_cardinal 44 = "NE" ∧
    degrees_to_cardinal 46 = "NE" ∧ degrees_to_cardinal 180 = "S" ∧
    degrees_to_cardinal 359 = "N" ∧ degrees_to_cardinal 360 = "N" := by
  refine ⟨?_, ?_, degrees_to_cardinal_44, ?_, ?_, ?_, ?_⟩
  · simp only [parse_observation, ht, hw, extract_value, Except.map]
  · have h : pyRoundInt ((0 : ℚ) / 45) = 0 :=
      pyRoundInt_of_lt _ 0 (by norm_num) (by norm_num)
    simp only [degrees_to_cardinal]
    rw [h]; decide
  · have h : pyRoundInt ((46 : ℚ) / 45) = 1 :=
      pyRoundInt_of_lt _ 1 (by norm_num) (by norm_num)
    simp only [degrees_to_cardinal]
    rw [h]; decide
  · have h : pyRoundInt ((180 : ℚ) / 45) = 4 :=
      pyRoundInt_of_lt _ 4 (by norm_num) (by norm_num)
    simp only [degrees_to_cardinal]
    rw [h]; decide
  · have h : pyRoundInt ((359 : ℚ) / 45) = 8 := by
      rw [pyRoundInt_of_gt _ 7 (by norm_num) (by norm_num)]
      norm_num
    simp only [degrees_to_cardinal]
    rw [h]; decide
  · have h : pyRoundInt ((360 : ℚ) / 45) = 8 :=
      pyRoundInt_of_lt _ 8 (by norm_num) (by norm_num)
    simp only [degrees_to_cardinal]
    rw [h]; decide

/-- C2 amended witness at the concrete payload value 2. -/
theorem wind_direction_amended_witness :
    (payloadWind 2).timestamp = some (some 0) ∧
    (payloadWind 2).windDirection = some (some 2) ∧
    ((parse_observation "KPNE" (payloadWind 2)).map (fun o => o.wind_direction)
       = Except.ok (if pyRound2 2 = 0 then none
                    else some (degrees_to_cardinal (pyRound2 2))) ∧
     degrees_to_cardinal 0 = "N" ∧ degrees_to_cardinal 44 = "NE" ∧
     degrees_to_cardinal 46 = "NE" ∧ degrees_to_cardinal 180 = "S" ∧
     degrees_to_cardinal 359 = "N" ∧ degrees_to_cardinal 360 = "N") :=
  ⟨rfl, rfl, wind_direction_amended "KPNE" (payloadWind 2) 0 2 rfl rfl⟩

/-- C4: the validator rejects temperature 51, humidity 101, visibility -1 and
a missing observed_at in every record carrying them, and accepts temperature
-50 (inclusive lower endpoint) in a record that is otherwise well-formed. -/
theorem validator_boundaries (o : Observation) :
    (o.temperature_c = some 51 → validate_observation o = false) ∧
    (o.relative_humidity = some 101 → validate_observation o = false) ∧
    (o.visibility_m = some (-1) → validate_observation o = false) ∧
    (o.observed_at = none → validate_observation o = false) ∧
    (o.temperature_c = some (-50) → o.observed_at ≠ none → o.station_id ≠ "" →
      (∀ h ∈ o.relative_humidity, 0 ≤ h ∧ h ≤ 100) →
      (∀ v ∈ o.visibility_m, 0 ≤ v) →
      validate_observation o = true) := by
  refine ⟨?_, ?_, ?_, ?_, ?_⟩
  · intro h
    simp only [validate_observation]
    split_ifs with h1 h2 h3 h4 h5 <;> try rfl
    simp [h] at h3
    exact absurd h3.2 (by norm_num)
  · intro h
    simp only [validate_observation]
    split_ifs with h1 h2 h3 h4 h5 <;> try rfl
    simp [h] at h4
    exact absurd h4 (by norm_num)
  · intro h
    simp [validate_observation, h]
  · intro h
    simp [validate_observation, h]
  · intro ht hobs hsid hhum hvis
    have h3 : o.temperature_c.any (fun t => decide (t < -50) || decide (t > 50)) = false := by
      simp [ht]
    have h4 : o.relative_humidity.any (fun h => decide (h < 0) || decide (h > 100)) = false := by
      rcases hh : o.relative_humidity with _ | x
      · simp
      · have hb := hhum x (by simp [hh])
        simp only [Option.any_some]
        simp only [Bool.or_eq_false_iff, decide_eq_false_iff_not, not_lt]
        exact ⟨hb.1, hb.2⟩
    have h5 : o.visibility_m.any (fun v => decide (v < 0)) = false := by
      rcases hv : o.visibility_m with _ | x
      · simp
      · have hb := hvis x (by simp [hv])
        simp only [Option.any_some, decide_eq_false_iff_not, not_lt]
        exact hb
    simp [validate_observation, hobs, hsid, h3, h4, h5]

/-- C4 witness: a concrete record with temperature -50 that the validator
accepts. -/
theorem validator_boundaries_witness :
    validate_observation
      { observed_at := some 0, station_id := "KPNE", station_name := "",
        temperature_c := some (-50), dewpoint_c := none,
        dewpoint_spread_c := none, relative_humidity := some 40,
        barometric_pressure := none, visibility_m := some 500,
        wind_speed_kmh := none, wind_direction := none, wind_gust_kmh := none,
        conditions_text := "", cloud_coverage := none } = true :=
  (validator_boundaries _).2.2.2.2 rfl (by decide) (by decide)
    (by intro h hh; simp at hh; subst hh; norm_num)
    (by intro v hv; simp at hv; subst hv; norm_num)

/-- Concrete payload carrying a wind-speed and a wind-gust value. -/
def payloadWS (v u : ℚ) : RawProperties :=
  { timestamp := some (some 0), temperature := none, dewpoint := none,
    relativeHumidity := none, barometricPressure := none, visibility := none,
    windSpeed := some (some v), windGust := some (some u), windDirection := none,
    textDescription := "", cloudLayers := [], station := "" }

/-- C6 counterexample: for the provider wind-speed value 2.107 m/s the code
stores round(round(2.107, 2) * 3.6, 2) = 7.6 km/h, while the claimed law
round(value * 3.6, 2) yields 7.59 km/h; the two differ because extraction
rounds the raw value to two decimals before the unit conversion. -/
theorem wind_speed_conversion_counterexample :
    (parse_observation "KPNE" (payloadWS (2107/1000) 0)).map (fun o => o.wind_speed_kmh)
      = Except.ok (some (38/5)) ∧
    pyRound2 ((2107/1000) * (18/5)) = 759/100 ∧
    (38/5 : ℚ) ≠ 759/100 := by
  have e1 : ((2107:ℚ)/1000 * 100) = 2107/10 := by norm_num
  have h1 : pyRound2 ((2107:ℚ)/1000) = 211/100 := by
    rw [pyRound2, e1, pyRoundInt_of_gt _ 210 (by norm_num) (by norm_num)]
    norm_num
  have h2 : pyRound2 ((211:ℚ)/100 * (18/5)) = 38/5 := by
    rw [pyRound2]
    rw [pyRoundInt_of_gt _ 759 (by norm_num) (by norm_num)]
    norm_num
  have h3 : pyRound2 ((2107:ℚ)/1000 * (18/5)) = 759/100 := by
    rw [pyRound2]
    rw [pyRoundInt_of_gt _ 758 (by norm_num) (by norm_num)]
    norm_num
  refine ⟨?_, h3, by norm_num⟩
  simp [parse_observation, payloadWS, extract_value, h1, h2, Except.map]

/-- C6 amended: the stored wind_speed_kmh is round(round(value, 2) * 3.6, 2)
(extraction first rounds the provider value to two decimals), and likewise
for wind_gust_kmh; the claimed single-rounding law round(value * 3.6, 2)
holds exactly when the provider value is unchanged by two-decimal
rounding. -/
theorem wind_speed_conversion_amended (s : String) (p : RawProperties)
    (o : Observation) (v u : ℚ)
    (hp : parse_observation s p = Except.ok o)
    (hws : p.windSpeed = some (some v)) (hwg : p.windGust = some (some u)) :
    o.wind_speed_kmh = some (pyRound2 (pyRound2 v * (18/5))) ∧
    o.wind_gust_kmh = some (pyRound2 (pyRound2 u * (18/5))) ∧
    (pyRound2 v = v → o.wind_speed_kmh = some (pyRound2 (v * (18/5)))) := by
  rcases hts : p.timestamp with _ | ts
  · simp [parse_observation, hts] at hp
  · rcases ts with _ | t
    · simp [parse_observation, hts] at hp
    · simp only [parse_observation, hts] at hp
      have ho := Except.ok.inj hp
      subst ho
      refine ⟨?_, ?_, ?_⟩
      · simp [hws, extract_value]
      · simp [hwg, extract_value]
      · intro hv
        simp [hws, extract_value, hv]

/-- The observation that parsing payloadWS 1 1 produces. -/
def obsWS1 : Observation :=
  { observed_at := some 0, station_id := "KPNE", station_name := "",
    temperature_c := none, dewpoint_c := none, dewpoint_spread_c := none,
    relative_humidity := none, barometric_pressure := none,
    visibility_m := none,
    wind_speed_kmh := some (pyRound2 (pyRound2 1 * (18/5))),
    wind_direction := none,
    wind_gust_kmh := some (pyRound2 (pyRound2 1 * (18/5))),
    conditions_text := "", cloud_coverage := none }

/-- C6 amended witness at the concrete provider value 1 m/s. -/
theorem wind_speed_conversion_amended_witness :
    parse_observation "KPNE" (payloadWS 1 1) = Except.ok obsWS1 ∧
    (obsWS1.wind_speed_kmh = some (pyRound2 (pyRound2 1 * (18/5))) ∧
     obsWS1.wind_gust_kmh = some (pyRound2 (pyRound2 1 * (18/5))) ∧
     (pyRound2 1 = 1 → obsWS1.wind_speed_kmh = some (pyRound2 (1 * (18/5))))) :=
  ⟨rfl, wind_speed_conversion_amended "KPNE" (payloadWS 1 1) obsWS1 1 1 rfl rfl rfl⟩

/-- C7: fetch_latest returns None rather than propagating an exception, for
every transport error or non-2xx status (requestException), for a malformed
body (jsonError), and for every payload on which normalization fails; when
it returns an observation, normalization succeeded on the payload. -/
theorem fetch_never_raises (s : String) (r : HttpOutcome) :
    (∀ m, r = HttpOutcome.requestException m → fetch_latest_observation s r = none) ∧
    (r = HttpOutcome.jsonError → fetch_latest_observation s r = none) ∧
    (∀ p e, r = HttpOutcome.ok p → parse_observation s p = Except.error e →
      fetch_latest_observation s r = none) ∧
    (fetch_latest_observation s r = none ∨
      ∃ p o, r = HttpOutcome.ok p ∧ parse_observation s p = Except.ok o ∧
        fetch_latest_observation s r = some o) := by
  refine ⟨?_, ?_, ?_, ?_⟩
  · rintro m rfl; rfl
  · rintro rfl; rfl
  · rintro p e rfl hp
    simp [fetch_latest_observation, hp]
  · cases r with
    | requestException m => exact Or.inl rfl
    | jsonError => exact Or.inl rfl
    | ok p =>
      cases hp : parse_observation s p with
      | error e =>
        exact Or.inl (by simp [fetch_latest_observation, hp])
      | ok o =>
        exact Or.inr ⟨p, o, rfl, hp, by simp [fetch_latest_observation, hp]⟩

/-- C7 witness: a malformed-body outcome yields None. -/
theorem fetch_never_raises_witness :
    fetch_latest_observation "KPNE" HttpOutcome.jsonError = none :=
  (fetch_never_raises "KPNE" HttpOutcome.jsonError).2.1 rfl

/-- Occurrence of the duplicate pattern in the store's constraint message. -/
lemma isDuplicateError_dupMsg : isDuplicateError dupMsg = true := by decide

/-- Absent key means no stored row carries it. -/
lemma countKey_eq_zero (db : DB) (sid : String) (t : Option Nat)
    (h : dbHasKey db sid t = false) : countKey db sid t = 0 := by
  induction db with
  | nil => rfl
  | cons r rest ih =>
    simp only [dbHasKey, List.any_cons, Bool.or_eq_false_iff] at h
    simp only [countKey, List.filter_cons]
    rw [h.1]
    exact ih (by simp [dbHasKey, h.2])

/-- Present key means at least one stored row carries it. -/
lemma countKey_pos (db : DB) (sid : String) (t : Option Nat)
    (h : dbHasKey db sid t = true) : 0 < countKey db sid t := by
  induction db with
  | nil => simp [dbHasKey] at h
  | cons r rest ih =>
    simp only [dbHasKey, List.any_cons, Bool.or_eq_true] at h
    simp only [countKey, List.filter_cons]
    rcases h with h | h
    · rw [h]; simp
    · have hpos := ih (by simp [dbHasKey, h])
      simp only [countKey] at hpos
      split
      · simp
      · simpa using hpos

/-- Appending a row makes its own key present. -/
lemma dbHasKey_append_self (db : DB) (o : Observation) :
    dbHasKey (db ++ [o]) o.station_id o.observed_at = true := by
  simp [dbHasKey]

/-- Appending a row adds exactly one row carrying its key. -/
lemma countKey_append_self (db : DB) (o : Observation) :
    countKey (db ++ [o]) o.station_id o.observed_at
      = countKey db o.station_id o.observed_at + 1 := by
  simp [countKey, List.filter_append]

/-- C1: with a valid observation and a store satisfying the unique
constraint, the first cycle succeeds, a second insert of the same
(station_id, observed_at) raises the duplicate-key message, the collector
maps it to a successful cycle without touching the store, and exactly one
row with that key is stored. -/
theorem insert_duplicate_idempotent (db : DB) (o : Observation)
    (hv : validate_observation o = true) (hu : uniqueKeys db) :
    (collect_station db (some o)).success = true ∧
    insert_observation (collect_station db (some o)).db o
      = InsertResult.raised dupMsg ∧
    isDuplicateError dupMsg = true ∧
    (collect_station (collect_station db (some o)).db (some o)).success = true ∧
    (collect_station (collect_station db (some o)).db (some o)).db
      = (collect_station db (some o)).db ∧
    countKey (collect_station db (some o)).db o.station_id o.observed_at = 1 := by
  by_cases hk : dbHasKey db o.station_id o.observed_at = true
  · have hc1 : collect_station db (some o) = ⟨true, db, false⟩ := by
      simp [collect_station, hv, insert_observation, hk, isDuplicateError_dupMsg]
    rw [hc1]
    refine ⟨rfl, by simp [insert_observation, hk], isDuplicateError_dupMsg, ?_, ?_, ?_⟩
    · simp [collect_station, hv, insert_observation, hk, isDuplicateError_dupMsg]
    · simp [collect_station, hv, insert_observation, hk, isDuplicateError_dupMsg]
    · have h1 := countKey_pos db o.station_id o.observed_at hk
      have h2 := hu o.station_id o.observed_at
      show countKey db o.station_id o.observed_at = 1
      omega
  · have hk' : dbHasKey db o.station_id o.observed_at = false := by
      simpa using hk
    have hc1 : (collect_station db (some o)).db = db ++ [o] ∧
        (collect_station db (some o)).success = true := by
      simp [collect_station, hv, insert_observation, hk']
    have hk2 := dbHasKey_append_self db o
    rw [hc1.1]
    refine ⟨hc1.2, by simp [insert_observation, hk2], isDuplicateError_dupMsg, ?_, ?_, ?_⟩
    · simp [collect_station, hv, insert_observation, hk2, isDuplicateError_dupMsg]
    · simp [collect_station, hv, insert_observation, hk2, isDuplicateError_dupMsg]
    · rw [countKey_append_self, countKey_eq_zero db _ _ hk']

/-- Concrete observation for exercising the idempotent-insert claim. -/
def obsC1 : Observation :=
  { observed_at := some 0, station_id := "KPNE", station_name := "",
    temperature_c := none, dewpoint_c := none, dewpoint_spread_c := none,
    relative_humidity := none, barometric_pressure := none, visibility_m := none,
    wind_speed_kmh := none, wind_direction := none, wind_gust_kmh := none,
    conditions_text := "", cloud_coverage := none }

/-- C1 witness on the empty store and a concrete observation. -/
theorem insert_duplicate_idempotent_witness :
    (collect_station [] (some obsC1)).success = true ∧
    insert_observation (collect_station [] (some obsC1)).db obsC1
      = InsertResult.raised dupMsg ∧
    isDuplicateError dupMsg = true ∧
    (collect_station (collect_station [] (some obsC1)).db (some obsC1)).success = true ∧
    (collect_station (collect_station [] (some obsC1)).db (some obsC1)).db
      = (collect_station [] (some obsC1)).db ∧
    countKey (collect_station [] (some obsC1)).db obsC1.station_id obsC1.observed_at = 1 :=
  insert_duplicate_idempotent [] obsC1 (by decide)
    (fun sid t => by simp [countKey])

/-- Concrete fog-range observation: visibility 999 m, below the threshold. -/
def obsC5 : Observation :=
  { observed_at := some 0, station_id := "KPNE", station_name := "",
    temperature_c := none, dewpoint_c := none, dewpoint_spread_c := none,
    relative_humidity := none, barometric_pressure := none,
    visibility_m := some 999,
    wind_speed_kmh := none, wind_direction := none, wind_gust_kmh := none,
    conditions_text := "", cloud_coverage := none }

/-- C5 counterexample: a cycle whose persist step ends in Duplicate, with a
persisted observation of visibility 999 m (< 1000), emits no fog alert: the
fog check sits inside the try block after a successful insert only. -/
theorem fog_alert_counterexample :
    insert_observation [obsC5] obsC5 = InsertResult.raised dupMsg ∧
    isDuplicateError dupMsg = true ∧
    obsC5.visibility_m = some 999 ∧ ((999 : ℚ) < 1000) ∧
    collect_station [obsC5] (some obsC5) = ⟨true, [obsC5], false⟩ := by decide

/-- C5 amended: on a fresh-insert Success outcome the fog alert fires iff
visibility_m is present, nonzero, and strictly below 1000 m (999 fires,
1000 does not, and 0 does not because of the truthiness guard); on a
Duplicate outcome no fog alert is emitted. -/
theorem fog_alert_amended (db : DB) (o : Observation)
    (hv : validate_observation o = true) :
    (dbHasKey db o.station_id o.observed_at = false →
      ((collect_station db (some o)).fogAlert = true ↔
        ∃ v, o.visibility_m = some v ∧ v ≠ 0 ∧ v < 1000)) ∧
    (dbHasKey db o.station_id o.observed_at = true →
      (collect_station db (some o)).fogAlert = false) := by
  constructor
  · intro hk
    simp only [collect_station, hv, insert_observation, hk, Bool.false_eq_true,
      if_false]
    cases hvv : o.visibility_m with
    | none => simp
    | some v => simp [hvv]
  · intro hk
    simp [collect_station, hv, insert_observation, hk, isDuplicateError_dupMsg]

/-- C5 amended witness on the empty store and the concrete fog observation. -/
theorem fog_alert_amended_witness :
    validate_observation obsC5 = true ∧
    ((dbHasKey [] obsC5.station_id obsC5.observed_at = false →
      ((collect_station [] (some obsC5)).fogAlert = true ↔
        ∃ v, obsC5.visibility_m = some v ∧ v ≠ 0 ∧ v < 1000)) ∧
     (dbHasKey [] obsC5.station_id obsC5.observed_at = true →
      (collect_station [] (some obsC5)).fogAlert = false)) :=
  ⟨by decide, fog_alert_amended [] obsC5 (by decide)⟩

/-- The round fold's tallies accumulate additively over any starting stats,
and the store threading is independent of the starting stats. -/
lemma roundFold_stats (l : List StationStep) : ∀ (s : RoundStats) (d : DB),
    (l.foldl roundStep (s, d)).2 = (l.foldl roundStep (⟨0, 0, 0⟩, d)).2 ∧
    (l.foldl roundStep (s, d)).1.successful
      = s.successful + (l.foldl roundStep (⟨0, 0, 0⟩, d)).1.successful ∧
    (l.foldl roundStep (s, d)).1.duplicates
      = s.duplicates + (l.foldl roundStep (⟨0, 0, 0⟩, d)).1.duplicates ∧
    (l.foldl roundStep (s, d)).1.failed
      = s.failed + (l.foldl roundStep (⟨0, 0, 0⟩, d)).1.failed := by
  induction l with
  | nil => intro s d; simp
  | cons x t ih =>
    intro s d
    cases x with
    | exnRaised m =>
      simp only [List.foldl_cons, roundStep]
      obtain ⟨e2, es, ed, ef⟩ := ih { s with failed := s.failed + 1 } d
      obtain ⟨f2, fs, fd, ff⟩ := ih { successful := 0, duplicates := 0, failed := 0 + 1 } d
      refine ⟨by rw [e2, f2], ?_, ?_, ?_⟩ <;>
        simp only [es, ed, ef, fs, fd, ff] <;> omega
    | run fetched =>
      simp only [List.foldl_cons, roundStep]
      cases hc : (collect_station d fetched).success with
      | true =>
        simp only [hc, if_true]
        obtain ⟨e2, es, ed, ef⟩ :=
          ih { s with successful := s.successful + 1 } (collect_station d fetched).db
        obtain ⟨f2, fs, fd, ff⟩ :=
          ih { successful := 0 + 1, duplicates := 0, failed := 0 }
            (collect_station d fetched).db
        refine ⟨by rw [e2, f2], ?_, ?_, ?_⟩ <;>
          simp only [es, ed, ef, fs, fd, ff] <;> omega
      | false =>
        simp only [hc, Bool.false_eq_true, if_false]
        obtain ⟨e2, es, ed, ef⟩ :=
          ih { s with failed := s.failed + 1 } (collect_station d fetched).db
        obtain ⟨f2, fs, fd, ff⟩ :=
          ih { successful := 0, duplicates := 0, failed := 0 + 1 }
            (collect_station d fetched).db
        refine ⟨by rw [e2, f2], ?_, ?_, ?_⟩ <;>
          simp only [es, ed, ef, fs, fd, ff] <;> omega

/-- Every station contributes exactly one unit to the round's tallies, and
the duplicates tally is never incremented. -/
lemma roundFold_counts (l : List StationStep) : ∀ (s : RoundStats) (d : DB),
    (l.foldl roundStep (s, d)).1.duplicates = s.duplicates ∧
    (l.foldl roundStep (s, d)).1.successful + (l.foldl roundStep (s, d)).1.failed
      = s.successful + s.failed + l.length := by
  induction l with
  | nil => intro s d; simp
  | cons x t ih =>
    intro s d
    cases x with
    | exnRaised m =>
      simp only [List.foldl_cons, roundStep]
      obtain ⟨hd, hc⟩ := ih { s with failed := s.failed + 1 } d
      refine ⟨by simpa using hd, ?_⟩
      rw [hc]
      simp only [List.length_cons]
      omega
    | run fetched =>
      simp only [List.foldl_cons, roundStep]
      cases hcs : (collect_station d fetched).success with
      | true =>
        simp only [hcs, if_true]
        obtain ⟨hd, hc⟩ :=
          ih { s with successful := s.successful + 1 } (collect_station d fetched).db
        refine ⟨by simpa using hd, ?_⟩
        rw [hc]
        simp only [List.length_cons]
        omega
      | false =>
        simp only [hcs, Bool.false_eq_true, if_false]
        obtain ⟨hd, hc⟩ :=
          ih { s with failed := s.failed + 1 } (collect_station d fetched).db
        refine ⟨by simpa using hd, ?_⟩
        rw [hc]
        simp only [List.length_cons]
        omega

/-- Concrete observation for exercising the round tallies. -/
def obsC3 : Observation :=
  { observed_at := some 0, station_id := "KLOM", station_name := "",
    temperature_c := none, dewpoint_c := none, dewpoint_spread_c := none,
    relative_humidity := none, barometric_pressure := none, visibility_m := none,
    wind_speed_kmh := none, wind_direction := none, wind_gust_kmh := none,
    conditions_text := "", cloud_coverage := none }

/-- C3 counterexample: a round whose only cycle ends in a Duplicate outcome
(the insert raises the duplicate-key message) reports successful = 1 and
duplicates = 0: the duplicate cycle is tallied under successful, not under
the duplicate tally. -/
theorem duplicate_tally_counterexample :
    insert_observation [obsC3] obsC3 = InsertResult.raised dupMsg ∧
    isDuplicateError dupMsg = true ∧
    (runRound [obsC3] [StationStep.run (some obsC3)]).1
      = { successful := 1, duplicates := 0, failed := 0 } := by decide

/-- C3 amended: a round's reported duplicates tally is always zero (cycles
ending in Duplicate are folded into the successful tally), and every
station's outcome lands in exactly one of successful or failed: their sum
is the number of stations, so no outcome is dropped. -/
theorem round_tallies_amended (db : DB) (steps : List StationStep) :
    (runRound db steps).1.duplicates = 0 ∧
    (runRound db steps).1.successful + (runRound db steps).1.failed
      = steps.length := by
  obtain ⟨hd, hc⟩ := roundFold_counts steps ⟨0, 0, 0⟩ db
  exact ⟨hd, by simpa [runRound] using hc⟩

/-- C8: a station whose loop body raises an unexpected exception leaves the
store untouched and adds exactly one failure to the round's tallies; every
other station, before and after it, is processed exactly as it would be in
the round without the raising station. -/
theorem round_exception_isolated (db : DB) (pre post : List StationStep) (m : String) :
    (runRound db (pre ++ StationStep.exnRaised m :: post)).2
      = (runRound db (pre ++ post)).2 ∧
    (runRound db (pre ++ StationStep.exnRaised m :: post)).1.successful
      = (runRound db (pre ++ post)).1.successful ∧
    (runRound db (pre ++ StationStep.exnRaised m :: post)).1.duplicates
      = (runRound db (pre ++ post)).1.duplicates ∧
    (runRound db (pre ++ StationStep.exnRaised m :: post)).1.failed
      = (runRound db (pre ++ post)).1.failed + 1 := by
  unfold runRound
  rw [List.foldl_append, List.foldl_append]
  rcases hpre : List.foldl roundStep (⟨0, 0, 0⟩, db) pre with ⟨s0, d0⟩
  simp only [List.foldl_cons, roundStep]
  obtain ⟨e2, es, ed, ef⟩ := roundFold_stats post { s0 with failed := s0.failed + 1 } d0
  obtain ⟨f2, fs, fd, ff⟩ := roundFold_stats post s0 d0
  refine ⟨by rw [e2, f2], ?_, ?_, ?_⟩
  all_goals simp only [es, ed, ef, fs, fd, ff]
  all_goals omega

/-- The backfill fold's counters accumulate additively over any starting
counts, and the store threading is independent of the starting counts. -/
lemma backfillFold_stats (s : String) (l : List RawProperties) :
    ∀ (c : BackfillCounts) (d : DB),
    (l.foldl (backfillStep s) (c, d)).2
      = (l.foldl (backfillStep s) (⟨0, 0, 0, 0⟩, d)).2 ∧
    (l.foldl (backfillStep s) (c, d)).1.fetched
      = c.fetched + (l.foldl (backfillStep s) (⟨0, 0, 0, 0⟩, d)).1.fetched ∧
    (l.foldl (backfillStep s) (c, d)).1.inserted
      = c.inserted + (l.foldl (backfillStep s) (⟨0, 0, 0, 0⟩, d)).1.inserted ∧
    (l.foldl (backfillStep s) (c, d)).1.duplicates
      = c.duplicates + (l.foldl (backfillStep s) (⟨0, 0, 0, 0⟩, d)).1.duplicates ∧
    (l.foldl (backfillStep s) (c, d)).1.errors
      = c.errors + (l.foldl (backfillStep s) (⟨0, 0, 0, 0⟩, d)).1.errors := by
  induction l with
  | nil => intro c d; simp
  | cons f t ih =>
    intro c d
    simp only [List.foldl_cons, backfillStep]
    rcases hbp : backfillParse s f with _ | o
    · simp only
      obtain ⟨e2, ef, ei, ed, ee⟩ := ih { c with errors := c.errors + 1 } d
      obtain ⟨f2, ff, fi, fd, fe⟩ := ih { fetched := 0, inserted := 0, duplicates := 0, errors := 0 + 1 } d
      refine ⟨by rw [e2, f2], ?_, ?_, ?_, ?_⟩
      all_goals simp only [ef, ei, ed, ee, ff, fi, fd, fe]
      all_goals omega
    · cases hv : validate_observation o with
      | false =>
        simp only [hv, if_true]
        obtain ⟨e2, ef, ei, ed, ee⟩ := ih { c with errors := c.errors + 1 } d
        obtain ⟨f2, ff, fi, fd, fe⟩ := ih { fetched := 0, inserted := 0, duplicates := 0, errors := 0 + 1 } d
        refine ⟨by rw [e2, f2], ?_, ?_, ?_, ?_⟩
        all_goals simp only [ef, ei, ed, ee, ff, fi, fd, fe]
        all_goals omega
      | true =>
        simp only [hv, Bool.true_eq_false, if_false]
        rcases hins : insert_observation d o with db2 | msg
        · simp only
          obtain ⟨e2, ef, ei, ed, ee⟩ := ih { c with inserted := c.inserted + 1 } db2
          obtain ⟨f2, ff, fi, fd, fe⟩ := ih { fetched := 0, inserted := 0 + 1, duplicates := 0, errors := 0 } db2
          refine ⟨by rw [e2, f2], ?_, ?_, ?_, ?_⟩
          all_goals simp only [ef, ei, ed, ee, ff, fi, fd, fe]
          all_goals omega
        · cases hdup : isDuplicateError msg with
          | true =>
            simp only [hdup, if_true]
            obtain ⟨e2, ef, ei, ed, ee⟩ := ih { c with duplicates := c.duplicates + 1 } d
            obtain ⟨f2, ff, fi, fd, fe⟩ := ih { fetched := 0, inserted := 0, duplicates := 0 + 1, errors := 0 } d
            refine ⟨by rw [e2, f2], ?_, ?_, ?_, ?_⟩
            all_goals simp only [ef, ei, ed, ee, ff, fi, fd, fe]
            all_goals omega
          | false =>
            simp only [hdup, Bool.false_eq_true, if_false]
            obtain ⟨e2, ef, ei, ed, ee⟩ := ih { c with errors := c.errors + 1 } d
            obtain ⟨f2, ff, fi, fd, fe⟩ := ih { fetched := 0, inserted := 0, duplicates := 0, errors := 0 + 1 } d
            refine ⟨by rw [e2, f2], ?_, ?_, ?_, ?_⟩
            all_goals simp only [ef, ei, ed, ee, ff, fi, fd, fe]
            all_goals omega

/-- Failure mode of one backfill record against the store state at the time
it is processed: normalization failure, validation failure, or a persist
attempt that hits the unique constraint (Duplicate). -/
def stepFails (s : String) (d : DB) (f : RawProperties) : Prop :=
  backfillParse s f = none ∨
    ∃ o, backfillParse s f = some o ∧
      (validate_observation o = false ∨
        (validate_observation o = true ∧
          dbHasKey d o.station_id o.observed_at = true))

/-- C9: during a backfill, a record that fails — in normalization,
validation, or persistence (duplicate key) — adds one unit to the
errors-or-duplicates tallies, leaves the inserted tally and the store
exactly as the run without that record, and every remaining record is
still processed; a backfill over zero records leaves all counters at
zero. -/
theorem backfill_record_isolation (s : String) (db : DB)
    (pre post : List RawProperties) (f : RawProperties)
    (hf : stepFails s (backfill_process s db pre).2 f) :
    (backfill_process s db (pre ++ f :: post)).2
      = (backfill_process s db (pre ++ post)).2 ∧
    (backfill_process s db (pre ++ f :: post)).1.inserted
      = (backfill_process s db (pre ++ post)).1.inserted ∧
    (backfill_process s db (pre ++ f :: post)).1.fetched
      = (backfill_process s db (pre ++ post)).1.fetched + 1 ∧
    (backfill_process s db (pre ++ f :: post)).1.errors
        + (backfill_process s db (pre ++ f :: post)).1.duplicates
      = (backfill_process s db (pre ++ post)).1.errors
          + (backfill_process s db (pre ++ post)).1.duplicates + 1 ∧
    backfill_process s db ([] : List RawProperties) = (⟨0, 0, 0, 0⟩, db) := by
  unfold backfill_process
  unfold backfill_process at hf
  rw [List.foldl_append, List.foldl_append, List.foldl_cons]
  obtain ⟨a2, af, ai, ad, ae⟩ :=
    backfillFold_stats s pre ⟨(pre ++ f :: post).length, 0, 0, 0⟩ db
  obtain ⟨b2, bf, bi, bd, be⟩ :=
    backfillFold_stats s pre ⟨(pre ++ post).length, 0, 0, 0⟩ db
  obtain ⟨p2, pf, pi, pd, pe⟩ :=
    backfillFold_stats s pre ⟨pre.length, 0, 0, 0⟩ db
  set A := List.foldl (backfillStep s)
    (⟨(pre ++ f :: post).length, 0, 0, 0⟩, db) pre with hAdef
  set B := List.foldl (backfillStep s)
    (⟨(pre ++ post).length, 0, 0, 0⟩, db) pre with hBdef
  set Z := List.foldl (backfillStep s) (⟨0, 0, 0, 0⟩, db) pre with hZdef
  have hfA : stepFails s A.2 f := by
    rw [p2] at hf
    rw [a2]
    exact hf
  have hAB : A.2 = B.2 := by rw [a2, b2]
  have hai : A.1.inserted = Z.1.inserted := by simpa using ai
  have hbi : B.1.inserted = Z.1.inserted := by simpa using bi
  have haf : A.1.fetched = (pre ++ f :: post).length + Z.1.fetched := by simpa using af
  have hbf : B.1.fetched = (pre ++ post).length + Z.1.fetched := by simpa using bf
  have hae : A.1.errors = Z.1.errors := by simpa using ae
  have hbe : B.1.errors = Z.1.errors := by simpa using be
  have had : A.1.duplicates = Z.1.duplicates := by simpa using ad
  have hbd : B.1.duplicates = Z.1.duplicates := by simpa using bd
  have hL : (pre ++ f :: post).length = (pre ++ post).length + 1 := by
    simp
    omega
  have H : ∀ C1 : BackfillCounts,
      C1.fetched = A.1.fetched → C1.inserted = A.1.inserted →
      C1.errors + C1.duplicates = A.1.errors + A.1.duplicates + 1 →
      ((List.foldl (backfillStep s) (C1, A.2) post).2
          = (List.foldl (backfillStep s) B post).2 ∧
       (List.foldl (backfillStep s) (C1, A.2) post).1.inserted
          = (List.foldl (backfillStep s) B post).1.inserted ∧
       (List.foldl (backfillStep s) (C1, A.2) post).1.fetched
          = (List.foldl (backfillStep s) B post).1.fetched + 1 ∧
       (List.foldl (backfillStep s) (C1, A.2) post).1.errors
            + (List.foldl (backfillStep s) (C1, A.2) post).1.duplicates
          = (List.foldl (backfillStep s) B post).1.errors
              + (List.foldl (backfillStep s) B post).1.duplicates + 1) := by
    intro C1 hcf hci hce
    rw [hAB]
    obtain ⟨c2, cf, ci, cd, ce⟩ := backfillFold_stats s post C1 B.2
    have hd0 := backfillFold_stats s post B.1 B.2
    simp only [Prod.mk.eta] at hd0
    obtain ⟨d2, df2, di, dd, de⟩ := hd0
    refine ⟨by rw [c2, d2], ?_, ?_, ?_⟩
    · omega
    · omega
    · omega
  rcases hfA with hbp | ⟨o, hbp, hor⟩
  · have hstep : backfillStep s A f
        = ({ A.1 with errors := A.1.errors + 1 }, A.2) := by
      simp [backfillStep, hbp]
    rw [hstep]
    obtain ⟨x1, x2, x3, x4⟩ :=
      H { A.1 with errors := A.1.errors + 1 } rfl rfl (by simp; omega)
    exact ⟨x1, x2, x3, x4, by simp [backfill_process]⟩
  · rcases hor with hvf | ⟨hvt, hk⟩
    · have hstep : backfillStep s A f
          = ({ A.1 with errors := A.1.errors + 1 }, A.2) := by
        simp [backfillStep, hbp, hvf]
      rw [hstep]
      obtain ⟨x1, x2, x3, x4⟩ :=
        H { A.1 with errors := A.1.errors + 1 } rfl rfl (by simp; omega)
      exact ⟨x1, x2, x3, x4, by simp [backfill_process]⟩
    · have hins : insert_observation A.2 o = InsertResult.raised dupMsg := by
        simp [insert_observation, hk]
      have hstep : backfillStep s A f
          = ({ A.1 with duplicates := A.1.duplicates + 1 }, A.2) := by
        simp [backfillStep, hbp, hvt, hins, isDuplicateError_dupMsg]
      rw [hstep]
      obtain ⟨x1, x2, x3, x4⟩ :=
        H { A.1 with duplicates := A.1.duplicates + 1 } rfl rfl (by simp; omega)
      exact ⟨x1, x2, x3, x4, by simp [backfill_process]⟩

/-- Concrete raw record with a missing timestamp: normalization fails on it. -/
def payloadBad : RawProperties :=
  { timestamp := none, temperature := none, dewpoint := none,
    relativeHumidity := none, barometricPressure := none, visibility := none,
    windSpeed := none, windGust := none, windDirection := none,
    textDescription := "", cloudLayers := [], station := "" }

/-- C9 witness: a one-record backfill whose record fails normalization. -/
theorem backfill_record_isolation_witness :
    stepFails "KPNE" (backfill_process "KPNE" [] []).2 payloadBad ∧
    ((backfill_process "KPNE" [] ([] ++ payloadBad :: [])).2
        = (backfill_process "KPNE" [] ([] ++ [])).2 ∧
     (backfill_process "KPNE" [] ([] ++ payloadBad :: [])).1.inserted
        = (backfill_process "KPNE" [] ([] ++ [])).1.inserted ∧
     (backfill_process "KPNE" [] ([] ++ payloadBad :: [])).1.fetched
        = (backfill_process "KPNE" [] ([] ++ [])).1.fetched + 1 ∧
     (backfill_process "KPNE" [] ([] ++ payloadBad :: [])).1.errors
         + (backfill_process "KPNE" [] ([] ++ payloadBad :: [])).1.duplicates
        = (backfill_process "KPNE" [] ([] ++ [])).1.errors
            + (backfill_process "KPNE" [] ([] ++ [])).1.duplicates + 1 ∧
     backfill_process "KPNE" [] ([] : List RawProperties) = (⟨0, 0, 0, 0⟩, [])) :=
  ⟨Or.inl rfl,
    backfill_record_isolation "KPNE" [] [] [] payloadBad (Or.inl rfl)⟩
